import Mathlib

/-!
Shallow embedding of the Zagros stack-based bytecode virtual machine
(`src/vm.hpp` and companion headers: `cell.hpp`, `stack.hpp`, `register.hpp`,
`memory.hpp`, `interrupt.hpp`, `io.h`, `core.hpp`, `zagros_configuration.h`).

Machine integers are modelled as `Nat`/`Int` with explicit reductions
modulo `2 ^ 32` where the C++ `uint32_t` arithmetic wraps.  Fallible
operations return a pair of an error code and a value, exactly like the
C++ `result<T> = std::pair<Error, T>`.  Out-of-bounds array accesses that
are undefined behaviour in the C++ are modelled with `Option` (`none` =
the access is out of bounds).
-/

namespace Zagros

/-- Sizes from `zagros_configuration.h`. -/
def DATA_STACK_SIZE : Nat := 32

/-- Size of the address stack. -/
def ADDRESS_STACK_SIZE : Nat := 128

/-- Size of the register bank. -/
def REGISTER_BANK_SIZE : Nat := 24

/-- Size of the memory. -/
def MEMORY_SIZE : Nat := 65535

/-- Size of the interrupt table. -/
def INTERRUPT_TABLE_SIZE : Nat := 128

/-- Size of the I/O table. -/
def IO_TABLE_SIZE : Nat := 16

/-- Number of cores of the virtual machine. -/
def CORE_COUNT : Nat := 2

/-- The error / status enumeration from `result.hpp`. -/
inductive Error where
  | None
  | DivisionByZero
  | InvalidFloatOperation
  | OutOfMemory
  | DataStackOverflow
  | DataStackUnderflow
  | AddressStackOverflow
  | AddressStackUnderflow
  | IllegalRegisterId
  | IllegalMemoryAddress
  | IllegalInterruptId
  | SystemHalt
deriving DecidableEq, Repr

/-- Operation mode for the Core (`instruction_mode.hpp`). -/
inductive OpMode where
  | SIGNED
  | UNSIGNED
  | FLOAT
deriving DecidableEq, Repr

/-- Address mode for the Core (`instruction_mode.hpp`). -/
inductive AddressMode where
  | DIRECT
  | RELATIVE
deriving DecidableEq, Repr

/-- `2 ^ 32`, the modulus of the 32-bit machine words. -/
def U32MOD : Nat := 4294967296

/-- Truncation of a natural number to `uint32_t`. -/
def u32 (n : Nat) : Nat := n % U32MOD

/-- Wrapping `uint32_t` addition. -/
def u32add (a b : Nat) : Nat := (a + b) % U32MOD

/-- A `Cell` is four raw bytes, little endian (`cell.hpp`).
Each byte is a `Nat` kept below 256 by every constructor. -/
structure Cell where
  b0 : Nat
  b1 : Nat
  b2 : Nat
  b3 : Nat
deriving DecidableEq, Repr

instance : Inhabited Cell := ⟨⟨0, 0, 0, 0⟩⟩

namespace Cell

/-- The little-endian encoding of `n % 2 ^ 32`; the model of the
`Cell(uint32_t)` constructor. -/
def ofNat32 (n : Nat) : Cell :=
  ⟨n % 256, n / 256 % 256, n / 65536 % 256, n / 16777216 % 256⟩

/-- The model of the `Cell(int32_t)` constructor: the two's-complement
little-endian encoding. -/
def ofInt32 (i : Int) : Cell :=
  ofNat32 (i.emod (U32MOD : Int)).toNat

/-- The model of the `Cell(bool)` constructor: all four bytes `0xFF` for
true, all zero for false. -/
def ofBool (b : Bool) : Cell :=
  if b then ⟨255, 255, 255, 255⟩ else ⟨0, 0, 0, 0⟩

/-- `to_uint32`: little-endian read-back of the four bytes. -/
def to_uint32 (c : Cell) : Nat :=
  c.b0 + 256 * c.b1 + 65536 * c.b2 + 16777216 * c.b3

/-- `to_int32`: the signed reading of the same 32 bits. -/
def to_int32 (c : Cell) : Int :=
  if c.to_uint32 < 2147483648 then (c.to_uint32 : Int)
  else (c.to_uint32 : Int) - (U32MOD : Int)

/-- `to_size`: same as `to_uint32` (the C++ widens to `size_t`). -/
def to_size (c : Cell) : Nat := c.to_uint32

/-- `to_bool`: true iff all four bytes are `0xFF`. -/
def to_bool (c : Cell) : Bool :=
  c.b0 == 255 && c.b1 == 255 && c.b2 == 255 && c.b3 == 255

/-- `to_byte`: the low byte. -/
def to_byte (c : Cell) : Nat := c.b0

/-- `to_bytes` as a list `[b0, b1, b2, b3]`. -/
def bytesList (c : Cell) : List Nat := [c.b0, c.b1, c.b2, c.b3]

/-- `equal` compares the raw `u32` encodings, mode-independent. -/
def equal (l r : Cell) : Cell := ofBool (l.to_uint32 == r.to_uint32)

/-- `not_equal` compares the raw `u32` encodings, mode-independent. -/
def not_equal (l r : Cell) : Cell := ofBool (l.to_uint32 != r.to_uint32)

end Cell

/-- The floating-point operations of `cell.hpp` are kept abstract: the
VM semantics below is parametric in them, so every theorem proved holds
for any IEEE (or other) realisation of the float arithmetic. -/
structure FloatSem where
  fadd : Cell → Cell → Cell
  fsub : Cell → Cell → Cell
  fmul : Cell → Cell → Cell
  fmod : Cell → Cell → Cell
  fdiv : Cell → Cell → Cell
  flt : Cell → Cell → Bool
  fgt : Cell → Cell → Bool
  isZero : Cell → Bool

/-- A concrete (non-IEEE) instantiation used only to produce closed
witnesses; the theorems themselves are quantified over any `FloatSem`. -/
def natFloatSem : FloatSem where
  fadd l r := Cell.ofNat32 (l.to_uint32 + r.to_uint32)
  fsub l r := Cell.ofInt32 ((l.to_uint32 : Int) - (r.to_uint32 : Int))
  fmul l r := Cell.ofNat32 (l.to_uint32 * r.to_uint32)
  fmod l r := Cell.ofNat32 (l.to_uint32 % r.to_uint32)
  fdiv l r := Cell.ofNat32 (l.to_uint32 / r.to_uint32)
  flt l r := l.to_uint32 < r.to_uint32
  fgt l r := r.to_uint32 < l.to_uint32
  isZero c := c.to_uint32 == 0

namespace Cell

/-- `less_than` under the operation mode. -/
def less_than (F : FloatSem) (l r : Cell) (m : OpMode) : Cell :=
  match m with
  | .SIGNED => ofBool (decide (l.to_int32 < r.to_int32))
  | .UNSIGNED => ofBool (decide (l.to_uint32 < r.to_uint32))
  | .FLOAT => ofBool (F.flt l r)

/-- `greater_than` under the operation mode. -/
def greater_than (F : FloatSem) (l r : Cell) (m : OpMode) : Cell :=
  match m with
  | .SIGNED => ofBool (decide (r.to_int32 < l.to_int32))
  | .UNSIGNED => ofBool (decide (r.to_uint32 < l.to_uint32))
  | .FLOAT => ofBool (F.fgt l r)

/-- `add` under the operation mode (wrapping in the integer modes). -/
def add (F : FloatSem) (l r : Cell) (m : OpMode) : Cell :=
  match m with
  | .SIGNED => ofInt32 (l.to_int32 + r.to_int32)
  | .UNSIGNED => ofNat32 (l.to_uint32 + r.to_uint32)
  | .FLOAT => F.fadd l r

/-- `subtract` under the operation mode (wrapping in the integer modes). -/
def subtract (F : FloatSem) (l r : Cell) (m : OpMode) : Cell :=
  match m with
  | .SIGNED => ofInt32 (l.to_int32 - r.to_int32)
  | .UNSIGNED => ofInt32 ((l.to_uint32 : Int) - (r.to_uint32 : Int))
  | .FLOAT => F.fsub l r

/-- `multiply` under the operation mode (wrapping in the integer modes). -/
def multiply (F : FloatSem) (l r : Cell) (m : OpMode) : Cell :=
  match m with
  | .SIGNED => ofInt32 (l.to_int32 * r.to_int32)
  | .UNSIGNED => ofNat32 (l.to_uint32 * r.to_uint32)
  | .FLOAT => F.fmul l r

/-- `divide_remainder`: `(status, modulo, quotient)`, `DivisionByZero`
when the divisor is zero under the mode.  C++ `%` and `/` truncate
toward zero, hence `Int.tmod` / `Int.tdiv` in signed mode. -/
def divide_remainder (F : FloatSem) (l r : Cell) (m : OpMode) :
    Error × Cell × Cell :=
  match m with
  | .SIGNED =>
    if r.to_int32 = 0 then (.DivisionByZero, ⟨0,0,0,0⟩, ⟨0,0,0,0⟩)
    else (.None, ofInt32 (l.to_int32.tmod r.to_int32), ofInt32 (l.to_int32.tdiv r.to_int32))
  | .UNSIGNED =>
    if r.to_uint32 = 0 then (.DivisionByZero, ⟨0,0,0,0⟩, ⟨0,0,0,0⟩)
    else (.None, ofNat32 (l.to_uint32 % r.to_uint32), ofNat32 (l.to_uint32 / r.to_uint32))
  | .FLOAT =>
    if F.isZero r then (.DivisionByZero, ⟨0,0,0,0⟩, ⟨0,0,0,0⟩)
    else (.None, F.fmod l r, F.fdiv l r)

/-- `multiply_divide_remainder`: `((l * mul) % r, (l * mul) / r)` with the
same division-by-zero discipline. -/
def multiply_divide_remainder (F : FloatSem) (l mul r : Cell) (m : OpMode) :
    Error × Cell × Cell :=
  match m with
  | .SIGNED =>
    if r.to_int32 = 0 then (.DivisionByZero, ⟨0,0,0,0⟩, ⟨0,0,0,0⟩)
    else (.None, ofInt32 ((l.to_int32 * mul.to_int32).tmod r.to_int32),
          ofInt32 ((l.to_int32 * mul.to_int32).tdiv r.to_int32))
  | .UNSIGNED =>
    if r.to_uint32 = 0 then (.DivisionByZero, ⟨0,0,0,0⟩, ⟨0,0,0,0⟩)
    else (.None, ofNat32 (l.to_uint32 * mul.to_uint32 % r.to_uint32),
          ofNat32 (l.to_uint32 * mul.to_uint32 / r.to_uint32))
  | .FLOAT =>
    if F.isZero r then (.DivisionByZero, ⟨0,0,0,0⟩, ⟨0,0,0,0⟩)
    else (.None, F.fmod (F.fmul l mul) r, F.fdiv (F.fmul l mul) r)

/-- `bitwise_and`. -/
def bitwise_and (l r : Cell) : Cell := ofNat32 (Nat.land l.to_uint32 r.to_uint32)

/-- `bitwise_or`. -/
def bitwise_or (l r : Cell) : Cell := ofNat32 (Nat.lor l.to_uint32 r.to_uint32)

/-- `bitwise_xor`. -/
def bitwise_xor (l r : Cell) : Cell := ofNat32 (Nat.xor l.to_uint32 r.to_uint32)

/-- `bitwise_not` (`~x` on the 32-bit word). -/
def bitwise_not (c : Cell) : Cell := ofNat32 (U32MOD - 1 - c.to_uint32)

/-- `bitwise_shift_left`: legal in the integer modes,
`InvalidFloatOperation` in float mode. -/
def bitwise_shift_left (l r : Cell) (m : OpMode) : Error × Cell :=
  match m with
  | .SIGNED => (.None, ofInt32 (l.to_int32 * 2 ^ r.to_uint32))
  | .UNSIGNED => (.None, ofNat32 (l.to_uint32 * 2 ^ r.to_uint32))
  | .FLOAT => (.InvalidFloatOperation, ofNat32 0)

/-- `bitwise_shift_right`: legal in the integer modes,
`InvalidFloatOperation` in float mode. -/
def bitwise_shift_right (l r : Cell) (m : OpMode) : Error × Cell :=
  match m with
  | .SIGNED => (.None, ofInt32 (l.to_int32 / 2 ^ r.to_uint32))
  | .UNSIGNED => (.None, ofNat32 (l.to_uint32 / 2 ^ r.to_uint32))
  | .FLOAT => (.InvalidFloatOperation, ofNat32 0)

end Cell

/-- The data stack (`stack.hpp`): a fixed array of `DATA_STACK_SIZE`
cells plus a `top` count.  `push`/`pop` carry no check of their own;
`guard` is the separate pre-flight check. -/
structure DataStack where
  arr : List Cell
  top : Nat
deriving DecidableEq, Repr

namespace DataStack

/-- A fresh, empty data stack. -/
def empty : DataStack := ⟨List.replicate DATA_STACK_SIZE default, 0⟩

/-- `guard(pops, pushes)`: the source checks overflow first, then
underflow. -/
def guard (st : DataStack) (pops pushes : Nat) : Error :=
  if st.top + pushes > DATA_STACK_SIZE then .DataStackOverflow
  else if st.top < pops then .DataStackUnderflow
  else .None

/-- `push`: `arr[top++] = value` (no check; the caller must have
guarded). -/
def push (st : DataStack) (v : Cell) : DataStack :=
  ⟨st.arr.set st.top v, st.top + 1⟩

/-- `pop`: `return arr[--top]` (no check; the caller must have
guarded). -/
def pop (st : DataStack) : Cell × DataStack :=
  (st.arr.getD (st.top - 1) default, ⟨st.arr, st.top - 1⟩)

/-- `clear`. -/
def clear (st : DataStack) : DataStack := ⟨st.arr, 0⟩

end DataStack

/-- The address stack (`stack.hpp`): always-safe LIFO of
`ADDRESS_STACK_SIZE` cells. -/
structure AddrStack where
  arr : List Cell
  top : Nat
deriving DecidableEq, Repr

namespace AddrStack

/-- A fresh, empty address stack. -/
def empty : AddrStack := ⟨List.replicate ADDRESS_STACK_SIZE default, 0⟩

/-- Safe `push`: `AddressStackOverflow` when full, otherwise the value
is stored. -/
def push (st : AddrStack) (v : Cell) : Error × AddrStack :=
  if st.top ≥ ADDRESS_STACK_SIZE then (.AddressStackOverflow, st)
  else (.None, ⟨st.arr.set st.top v, st.top + 1⟩)

/-- Safe `pop`: `AddressStackUnderflow` when empty. -/
def pop (st : AddrStack) : Error × Cell × AddrStack :=
  if st.top = 0 then (.AddressStackUnderflow, default, st)
  else (.None, st.arr.getD (st.top - 1) default, ⟨st.arr, st.top - 1⟩)

/-- `clear`. -/
def clear (st : AddrStack) : AddrStack := ⟨st.arr, 0⟩

end AddrStack

/-- The register bank (`register.hpp`): `REGISTER_BANK_SIZE` cells with
bounds-checked read/write. -/
structure RegisterBank where
  arr : List Cell
deriving DecidableEq, Repr

namespace RegisterBank

/-- A fresh, zeroed bank. -/
def empty : RegisterBank := ⟨List.replicate REGISTER_BANK_SIZE default⟩

/-- Bounds-checked `read`. -/
def read (b : RegisterBank) (id : Nat) : Error × Cell :=
  if id ≥ REGISTER_BANK_SIZE then (.IllegalRegisterId, default)
  else (.None, b.arr.getD id default)

/-- Bounds-checked `write`. -/
def write (b : RegisterBank) (id : Nat) (v : Cell) : Error × RegisterBank :=
  if id ≥ REGISTER_BANK_SIZE then (.IllegalRegisterId, b)
  else (.None, ⟨b.arr.set id v⟩)

/-- `clear` zeroes every slot. -/
def clear (_ : RegisterBank) : RegisterBank := empty

end RegisterBank

/-- The memory (`memory.hpp`): a byte array of `MEMORY_SIZE` bytes. -/
structure Memory where
  arr : List Nat
deriving DecidableEq, Repr

namespace Memory

/-- A fresh, zeroed memory. -/
def zeroed : Memory := ⟨List.replicate MEMORY_SIZE 0⟩

/-- A memory whose first bytes are `bs` and the rest zero (the result of
`load_program` on a fresh memory). -/
def loaded (bs : List Nat) : Memory :=
  ⟨bs ++ List.replicate (MEMORY_SIZE - bs.length) 0⟩

/-- `fetch_opcode`: the byte, or `SystemHalt` past the end. -/
def fetch_opcode (m : Memory) (addr : Nat) : Error × Nat :=
  if addr ≥ MEMORY_SIZE then (.SystemHalt, 0)
  else (.None, m.arr.getD addr 0)

/-- `read_bytes<BS>`: little-endian `BS`-byte read, zero-extended into
the high bytes of the cell; `IllegalMemoryAddress` when the range
escapes the memory. -/
def read_bytes (BS : Nat) (m : Memory) (addr : Nat) : Error × Cell :=
  if addr + BS > MEMORY_SIZE then (.IllegalMemoryAddress, default)
  else
    let byteAt := fun i => if i < BS then m.arr.getD (addr + i) 0 else 0
    (.None, ⟨byteAt 0, byteAt 1, byteAt 2, byteAt 3⟩)

/-- The write loop of `write_bytes`: deposit the bytes `bs` starting at
`a`. -/
def depositBytes : List Nat → Nat → List Nat → List Nat
  | arr, _, [] => arr
  | arr, a, b :: rest => depositBytes (arr.set a b) (a + 1) rest

/-- `write_bytes<BS>`: write the low `BS` bytes of the cell;
`IllegalMemoryAddress` (and no write) when the range escapes the
memory. -/
def write_bytes (BS : Nat) (m : Memory) (addr : Nat) (v : Cell) : Error × Memory :=
  if addr + BS > MEMORY_SIZE then (.IllegalMemoryAddress, m)
  else (.None, ⟨depositBytes m.arr addr (v.bytesList.take BS)⟩)

/-- The byte range `[a, a + len)` of the memory, as read by the
`std::equal` call in `compare_block`. -/
def blockBytes (m : Memory) (a len : Nat) : List Nat :=
  (List.range len).map (fun i => m.arr.getD (a + i) 0)

/-- `compare_block`: after the two range checks the source returns
`Cell{true}` on the equal branch and `Cell{true}` on the unequal branch
as well (transcribed as in the source). -/
def compare_block (m : Memory) (len dst orig : Nat) : Error × Cell :=
  if dst + len > MEMORY_SIZE then (.IllegalMemoryAddress, default)
  else if orig + len > MEMORY_SIZE then (.IllegalMemoryAddress, default)
  else if blockBytes m dst len = blockBytes m orig len then (.None, Cell.ofBool true)
  else (.None, Cell.ofBool true)

/-- `copy_block`: `std::copy_n` from `orig` into `dst` after the range
checks. -/
def copy_block (m : Memory) (len dst orig : Nat) : Error × Memory :=
  if dst + len > MEMORY_SIZE ∨ orig + len > MEMORY_SIZE then (.IllegalMemoryAddress, m)
  else (.None, ⟨depositBytes m.arr dst (blockBytes m orig len)⟩)

end Memory

/-- The interrupt table (`interrupt.hpp`): `INTERRUPT_TABLE_SIZE`
handler addresses with bounds-checked get/set. -/
structure InterruptTable where
  data : List Cell
deriving DecidableEq, Repr

namespace InterruptTable

/-- A fresh, zeroed table. -/
def empty : InterruptTable := ⟨List.replicate INTERRUPT_TABLE_SIZE default⟩

/-- Bounds-checked `set`. -/
def set (t : InterruptTable) (id : Nat) (addr : Cell) : Error × InterruptTable :=
  if id ≥ INTERRUPT_TABLE_SIZE then (.IllegalInterruptId, t)
  else (.None, ⟨t.data.set id addr⟩)

/-- Bounds-checked `get`. -/
def get (t : InterruptTable) (id : Nat) : Error × Cell :=
  if id ≥ INTERRUPT_TABLE_SIZE then (.IllegalInterruptId, default)
  else (.None, t.data.getD id default)

end InterruptTable

/-- What a single `IoTable::call` does, observationally: nothing, an
out-of-bounds read of the 16-slot callback array (undefined behaviour in
the C++), or the invocation of the callback held in a slot. -/
inductive IoCallEffect where
  | noop
  | oobAccess (idx : Nat)
  | invoked (idx : Nat)
deriving DecidableEq, Repr

/-- The I/O table (`io.h`): `IO_TABLE_SIZE` host callback slots, each
possibly null.  The callbacks themselves are opaque to the VM; a slot is
`none` for a null pointer and `some ()` for a live callback. -/
structure IoTable where
  callbacks : List (Option Unit)
deriving DecidableEq, Repr

namespace IoTable

/-- `call(id)` as written in `io.h`: the guard compares `id` against
`INTERRUPT_TABLE_SIZE` (128), not `IO_TABLE_SIZE` (16), and then indexes
the 16-slot array.  An index beyond the array length is the out-of-bounds
access. -/
def call (t : IoTable) (id : Nat) : IoCallEffect :=
  if id ≥ INTERRUPT_TABLE_SIZE then .noop
  else
    match t.callbacks.get? id with
    | none => .oobAccess id
    | some none => .noop
    | some (some _) => .invoked id

end IoTable

/-- One virtual core (`core.hpp`). -/
structure Core where
  ip : Nat
  active : Bool
  op_mode : OpMode
  addr_mode : AddressMode
  data : DataStack
  addrs : AddrStack
  regs : RegisterBank
deriving DecidableEq, Repr

namespace Core

/-- The default core state: ip 0, inactive, SIGNED/DIRECT, empty stacks,
zeroed registers. -/
def initial : Core :=
  ⟨0, false, .SIGNED, .DIRECT, DataStack.empty, AddrStack.empty, RegisterBank.empty⟩

instance : Inhabited Core := ⟨initial⟩

/-- `init(new_ip)`: reset to the default state with `ip = new_ip`,
inactive. -/
def init (c : Core) (new_ip : Nat) : Core :=
  ⟨new_ip, false, .SIGNED, .DIRECT, c.data.clear, c.addrs.clear, c.regs.clear⟩

end Core

/-- The whole VM state (`vm.hpp`). -/
structure VMState where
  mem : Memory
  int_table : InterruptTable
  cores : List Core
  io_table : IoTable
  cur_core_id : Nat
  int_enabled : Bool
deriving DecidableEq, Repr

namespace VMState

/-- The current core (`cores[cur_core_id]`). -/
def cur (s : VMState) : Core := s.cores.getD s.cur_core_id default

/-- Store back the current core. -/
def setCur (s : VMState) (c : Core) : VMState :=
  { s with cores := s.cores.set s.cur_core_id c }

/-- The freshly constructed VM: zeroed memory and tables, default
cores with core 0 active. -/
def initial : VMState where
  mem := Memory.zeroed
  int_table := InterruptTable.empty
  cores := [{ Core.initial with active := true }, Core.initial]
  io_table := ⟨List.replicate IO_TABLE_SIZE none⟩
  cur_core_id := 0
  int_enabled := false

/-- The first active index among `ids`, if any (the break-on-first-hit
scan loops of `sel_next_core`). -/
def findActive (cores : List Core) : List Nat → Option Nat
  | [] => none
  | i :: rest =>
    if (cores.getD i default).active then some i else findActive cores rest

/-- `sel_next_core`: scan `(cur, CORE_COUNT)` for an active core, then
scan `[0, cur')` again — both loops run unconditionally, exactly as in
the source. -/
def sel_next_core (s : VMState) : VMState :=
  if CORE_COUNT = 1 then s
  else
    let c1 :=
      match findActive s.cores (List.range' (s.cur_core_id + 1) (CORE_COUNT - (s.cur_core_id + 1))) with
      | some i => i
      | none => s.cur_core_id
    let c2 :=
      match findActive s.cores (List.range c1) with
      | some i => i
      | none => c1
    { s with cur_core_id := c2 }

end VMState

namespace VMState

/-- `i_nop`: advance the ip, reset the mode. -/
def i_nop (s : VMState) : Error × VMState :=
  (.None, s.setCur { s.cur with ip := u32add s.cur.ip 1, op_mode := .SIGNED })

/-- `i_load<S>(addr_offset, i_len)`: push the `S`-byte immediate at
`ip + addr_offset`, advance the ip by `i_len`. -/
def i_load (S addr_offset i_len : Nat) (s : VMState) : Error × VMState :=
  let core := s.cur
  let g := core.data.guard 0 1
  if g ≠ .None then (g, s)
  else
    let cell_addr := core.ip + addr_offset
    let rb := s.mem.read_bytes S cell_addr
    if rb.1 ≠ .None then (rb.1, s)
    else
      (.None, s.setCur { core with data := core.data.push rb.2,
                                   ip := u32add core.ip i_len, op_mode := .SIGNED })

/-- `i_fetch<S>`: pop an address, push the `S`-byte value there. -/
def i_fetch (S : Nat) (s : VMState) : Error × VMState :=
  let core := s.cur
  let g := core.data.guard 1 1
  if g ≠ .None then (g, s)
  else
    let p := core.data.pop
    let rb := s.mem.read_bytes S p.1.to_size
    if rb.1 ≠ .None then (rb.1, s.setCur { core with data := p.2 })
    else
      (.None, s.setCur { core with data := p.2.push rb.2,
                                   ip := u32add core.ip 1, op_mode := .SIGNED })

/-- `i_store<S>`: pop an address and a value, write the value's low `S`
bytes there. -/
def i_store (S : Nat) (s : VMState) : Error × VMState :=
  let core := s.cur
  let g := core.data.guard 2 0
  if g ≠ .None then (g, s)
  else
    let p1 := core.data.pop
    let p2 := p1.2.pop
    let wb := s.mem.write_bytes S p1.1.to_size p2.1
    if wb.1 ≠ .None then (wb.1, s.setCur { core with data := p2.2 })
    else
      (.None, { s.setCur { core with data := p2.2,
                                     ip := u32add core.ip 1, op_mode := .SIGNED }
                with mem := wb.2 })

/-- `i_dupe`: duplicate the top value. -/
def i_dupe (s : VMState) : Error × VMState :=
  let core := s.cur
  let g := core.data.guard 1 2
  if g ≠ .None then (g, s)
  else
    let p := core.data.pop
    (.None, s.setCur { core with data := (p.2.push p.1).push p.1,
                                 ip := u32add core.ip 1, op_mode := .SIGNED })

/-- `i_drop`: discard the top value. -/
def i_drop (s : VMState) : Error × VMState :=
  let core := s.cur
  let g := core.data.guard 1 0
  if g ≠ .None then (g, s)
  else
    let p := core.data.pop
    (.None, s.setCur { core with data := p.2,
                                 ip := u32add core.ip 1, op_mode := .SIGNED })

/-- `i_swap`: swap the top two values. -/
def i_swap (s : VMState) : Error × VMState :=
  let core := s.cur
  let g := core.data.guard 2 2
  if g ≠ .None then (g, s)
  else
    let p1 := core.data.pop
    let p2 := p1.2.pop
    (.None, s.setCur { core with data := (p2.2.push p1.1).push p2.1,
                                 ip := u32add core.ip 1, op_mode := .SIGNED })

/-- `i_push_address`: move the top data value onto the address stack. -/
def i_push_address (s : VMState) : Error × VMState :=
  let core := s.cur
  let g := core.data.guard 1 0
  if g ≠ .None then (g, s)
  else
    let p := core.data.pop
    let q := core.addrs.push p.1
    if q.1 ≠ .None then (q.1, s.setCur { core with data := p.2 })
    else
      (.None, s.setCur { core with data := p.2, addrs := q.2,
                                   ip := u32add core.ip 1, op_mode := .SIGNED })

/-- `i_pop_address`: move the top address value onto the data stack. -/
def i_pop_address (s : VMState) : Error × VMState :=
  let core := s.cur
  let g := core.data.guard 0 1
  if g ≠ .None then (g, s)
  else
    let q := core.addrs.pop
    if q.1 ≠ .None then (q.1, s)
    else
      (.None, s.setCur { core with data := core.data.push q.2.1, addrs := q.2.2,
                                   ip := u32add core.ip 1, op_mode := .SIGNED })

/-- The mode-independent `i_binary_op` overload: pop two, push `op l r`. -/
def i_binary_op2 (op : Cell → Cell → Cell) (s : VMState) : Error × VMState :=
  let core := s.cur
  let g := core.data.guard 2 1
  if g ≠ .None then (g, s)
  else
    let p1 := core.data.pop
    let p2 := p1.2.pop
    (.None, s.setCur { core with data := p2.2.push (op p2.1 p1.1),
                                 ip := u32add core.ip 1, op_mode := .SIGNED })

/-- The mode-polymorphic `i_binary_op` overload. -/
def i_binary_op3 (op : Cell → Cell → OpMode → Cell) (s : VMState) : Error × VMState :=
  let core := s.cur
  let g := core.data.guard 2 1
  if g ≠ .None then (g, s)
  else
    let p1 := core.data.pop
    let p2 := p1.2.pop
    (.None, s.setCur { core with data := p2.2.push (op p2.1 p1.1 core.op_mode),
                                 ip := u32add core.ip 1, op_mode := .SIGNED })

/-- The fallible `i_binary_op` overload.  The source's error branch is
`return {guard_err, Unit{}}` — it returns the (already-`None`) guard
status instead of the operation's error, transcribed as in the source. -/
def i_binary_opR (op : Cell → Cell → OpMode → Error × Cell) (s : VMState) : Error × VMState :=
  let core := s.cur
  let g := core.data.guard 2 1
  if g ≠ .None then (g, s)
  else
    let p1 := core.data.pop
    let p2 := p1.2.pop
    let er := op p2.1 p1.1 core.op_mode
    if er.1 ≠ .None then (g, s.setCur { core with data := p2.2 })
    else
      (.None, s.setCur { core with data := p2.2.push er.2,
                                   ip := u32add core.ip 1, op_mode := .SIGNED })

/-- `i_shift_left`: the fallible binary op on `bitwise_shift_left`. -/
def i_shift_left : VMState → Error × VMState :=
  i_binary_opR Cell.bitwise_shift_left

/-- `i_shift_right`: the fallible binary op on `bitwise_shift_right`. -/
def i_shift_right : VMState → Error × VMState :=
  i_binary_opR Cell.bitwise_shift_right

/-- `i_divide_remainder`: pop divisor and dividend, push modulo then
quotient. -/
def i_divide_remainder (F : FloatSem) (s : VMState) : Error × VMState :=
  let core := s.cur
  let g := core.data.guard 2 2
  if g ≠ .None then (g, s)
  else
    let p1 := core.data.pop
    let p2 := p1.2.pop
    let dr := Cell.divide_remainder F p2.1 p1.1 core.op_mode
    if dr.1 ≠ .None then (dr.1, s.setCur { core with data := p2.2 })
    else
      (.None, s.setCur { core with data := (p2.2.push dr.2.1).push dr.2.2,
                                   ip := u32add core.ip 1, op_mode := .SIGNED })

/-- `i_multiply_divide_remainder`: pop divisor, multiplier and dividend,
push modulo then quotient of `(l * mul) / r`. -/
def i_multiply_divide_remainder (F : FloatSem) (s : VMState) : Error × VMState :=
  let core := s.cur
  let g := core.data.guard 3 2
  if g ≠ .None then (g, s)
  else
    let p1 := core.data.pop
    let p2 := p1.2.pop
    let p3 := p2.2.pop
    let dr := Cell.multiply_divide_remainder F p3.1 p2.1 p1.1 core.op_mode
    if dr.1 ≠ .None then (dr.1, s.setCur { core with data := p3.2 })
    else
      (.None, s.setCur { core with data := (p3.2.push dr.2.1).push dr.2.2,
                                   ip := u32add core.ip 1, op_mode := .SIGNED })

/-- `i_not`: pop one value, push its bitwise complement. -/
def i_not (s : VMState) : Error × VMState :=
  let core := s.cur
  let g := core.data.guard 1 1
  if g ≠ .None then (g, s)
  else
    let p := core.data.pop
    (.None, s.setCur { core with data := p.2.push p.1.bitwise_not,
                                 ip := u32add core.ip 1, op_mode := .SIGNED })

/-- `i_pack_bytes`: pop four byte cells, push the packed word. -/
def i_pack_bytes (s : VMState) : Error × VMState :=
  let core := s.cur
  let g := core.data.guard 4 1
  if g ≠ .None then (g, s)
  else
    let pd := core.data.pop
    let pc := pd.2.pop
    let pb := pc.2.pop
    let pa := pb.2.pop
    let packed : Cell := ⟨pd.1.to_byte, pc.1.to_byte, pb.1.to_byte, pa.1.to_byte⟩
    (.None, s.setCur { core with data := pa.2.push packed,
                                 ip := u32add core.ip 1, op_mode := .SIGNED })

/-- `i_unpack_bytes`: pop one word, push its bytes `b3, b2, b1, b0`. -/
def i_unpack_bytes (s : VMState) : Error × VMState :=
  let core := s.cur
  let g := core.data.guard 1 4
  if g ≠ .None then (g, s)
  else
    let p := core.data.pop
    let d := (((p.2.push (Cell.ofNat32 p.1.b3)).push (Cell.ofNat32 p.1.b2)).push
                (Cell.ofNat32 p.1.b1)).push (Cell.ofNat32 p.1.b0)
    (.None, s.setCur { core with data := d,
                                 ip := u32add core.ip 1, op_mode := .SIGNED })

/-- `i_relative`: set the address mode to RELATIVE. -/
def i_relative (s : VMState) : Error × VMState :=
  (.None, s.setCur { s.cur with addr_mode := .RELATIVE,
                                ip := u32add s.cur.ip 1, op_mode := .SIGNED })

/-- The jump-target computation shared by the control-flow handlers:
direct, or relative to the current ip (wrapping). -/
def jumpTarget (core : Core) (t : Cell) : Nat :=
  match core.addr_mode with
  | .DIRECT => t.to_uint32
  | .RELATIVE => u32add t.to_uint32 core.ip

/-- `i_call`: push `ip + 4` on the address stack, pop the target, jump. -/
def i_call (s : VMState) : Error × VMState :=
  let core := s.cur
  let g := core.data.guard 1 0
  if g ≠ .None then (g, s)
  else
    let q := core.addrs.push (Cell.ofNat32 (u32add core.ip 4))
    if q.1 ≠ .None then (q.1, s)
    else
      let p := core.data.pop
      (.None, s.setCur { core with data := p.2, addrs := q.2,
                                   ip := jumpTarget core p.1,
                                   addr_mode := .DIRECT, op_mode := .SIGNED })

/-- `i_conditional_call`: pop target and condition; on a true condition
push `ip + 4` and jump; on a false condition the source leaves the ip
untouched (there is no `ip += 1` on that path). -/
def i_conditional_call (s : VMState) : Error × VMState :=
  let core := s.cur
  let g := core.data.guard 2 0
  if g ≠ .None then (g, s)
  else
    let p1 := core.data.pop
    let p2 := p1.2.pop
    if p2.1.to_bool then
      let q := core.addrs.push (Cell.ofNat32 (u32add core.ip 4))
      if q.1 ≠ .None then (q.1, s.setCur { core with data := p2.2 })
      else
        (.None, s.setCur { core with data := p2.2, addrs := q.2,
                                     ip := jumpTarget core p1.1,
                                     addr_mode := .DIRECT, op_mode := .SIGNED })
    else
      (.None, s.setCur { core with data := p2.2,
                                   addr_mode := .DIRECT, op_mode := .SIGNED })

/-- `i_jump`: pop the target and jump. -/
def i_jump (s : VMState) : Error × VMState :=
  let core := s.cur
  let g := core.data.guard 1 0
  if g ≠ .None then (g, s)
  else
    let p := core.data.pop
    (.None, s.setCur { core with data := p.2, ip := jumpTarget core p.1,
                                 addr_mode := .DIRECT, op_mode := .SIGNED })

/-- `i_conditional_jump`: pop target and condition; jump on true,
`ip += 4` on false. -/
def i_conditional_jump (s : VMState) : Error × VMState :=
  let core := s.cur
  let g := core.data.guard 2 0
  if g ≠ .None then (g, s)
  else
    let p1 := core.data.pop
    let p2 := p1.2.pop
    let new_ip := if p2.1.to_bool then jumpTarget core p1.1 else u32add core.ip 4
    (.None, s.setCur { core with data := p2.2, ip := new_ip,
                                 addr_mode := .DIRECT, op_mode := .SIGNED })

/-- `i_return`: pop the address stack into the ip. -/
def i_return (s : VMState) : Error × VMState :=
  let core := s.cur
  let q := core.addrs.pop
  if q.1 ≠ .None then (q.1, s)
  else
    (.None, s.setCur { core with addrs := q.2.2, ip := q.2.1.to_uint32,
                                 addr_mode := .DIRECT, op_mode := .SIGNED })

/-- `i_conditional_return`: pop a condition; on true pop the address
stack into the ip, on false `ip += 4`. -/
def i_conditional_return (s : VMState) : Error × VMState :=
  let core := s.cur
  let g := core.data.guard 1 0
  if g ≠ .None then (g, s)
  else
    let p := core.data.pop
    if p.1.to_bool then
      let q := core.addrs.pop
      if q.1 ≠ .None then (q.1, s.setCur { core with data := p.2 })
      else
        (.None, s.setCur { core with data := p.2, addrs := q.2.2,
                                     ip := q.2.1.to_uint32,
                                     addr_mode := .DIRECT, op_mode := .SIGNED })
    else
      (.None, s.setCur { core with data := p.2, ip := u32add core.ip 4,
                                   addr_mode := .DIRECT, op_mode := .SIGNED })

/-- `i_set_interrupt`: pop an interrupt id and a handler address, store
the handler in the interrupt table. -/
def i_set_interrupt (s : VMState) : Error × VMState :=
  let core := s.cur
  let g := core.data.guard 2 0
  if g ≠ .None then (g, s)
  else
    let p1 := core.data.pop
    let p2 := p1.2.pop
    let st := s.int_table.set p1.1.to_uint32 p2.1
    if st.1 ≠ .None then (st.1, s.setCur { core with data := p2.2 })
    else
      (.None, { s.setCur { core with data := p2.2,
                                     ip := u32add core.ip 1, op_mode := .SIGNED }
                with int_table := st.2 })

/-- `i_halt_interrupts`: disable interrupts. -/
def i_halt_interrupts (s : VMState) : Error × VMState :=
  (.None, { s.setCur { s.cur with ip := u32add s.cur.ip 1, op_mode := .SIGNED }
            with int_enabled := false })

/-- `i_start_interrupts`: enable interrupts. -/
def i_start_interrupts (s : VMState) : Error × VMState :=
  (.None, { s.setCur { s.cur with ip := u32add s.cur.ip 1, op_mode := .SIGNED }
            with int_enabled := true })

/-- `i_trigger_interrupt`: pop an interrupt id; the `interrupt` helper
it conditionally calls is a no-op in the source. -/
def i_trigger_interrupt (s : VMState) : Error × VMState :=
  let core := s.cur
  let g := core.data.guard 1 0
  if g ≠ .None then (g, s)
  else
    let p := core.data.pop
    (.None, s.setCur { core with data := p.2,
                                 ip := u32add core.ip 1, op_mode := .SIGNED })

/-- `i_invoke_io`: pop an I/O id and invoke `io_table.call` on it;
`none` models the out-of-bounds slot read `call` performs for ids in
`[IO_TABLE_SIZE, INTERRUPT_TABLE_SIZE)`. -/
def i_invoke_io (s : VMState) : Option (Error × VMState) :=
  let core := s.cur
  let g := core.data.guard 1 0
  if g ≠ .None then some (g, s)
  else
    let p := core.data.pop
    match s.io_table.call p.1.to_size with
    | .oobAccess _ => none
    | _ => some (.None, s.setCur { core with data := p.2,
                                             ip := u32add core.ip 1, op_mode := .SIGNED })

/-- `i_halt_system`: return `SystemHalt`, touching nothing. -/
def i_halt_system (s : VMState) : Error × VMState :=
  (.SystemHalt, s)

/-- `i_init_core`: pop a core id and an address and `init` that core.
The source indexes `cores[core_id]` with no bounds check; `none` models
the out-of-bounds access for `core_id ≥ CORE_COUNT`. -/
def i_init_core (s : VMState) : Option (Error × VMState) :=
  let core := s.cur
  let g := core.data.guard 2 0
  if g ≠ .None then some (g, s)
  else
    let p1 := core.data.pop
    let p2 := p1.2.pop
    let s1 := s.setCur { core with data := p2.2 }
    match s1.cores.get? p1.1.to_uint32 with
    | none => none
    | some target =>
      let s2 := { s1 with cores := s1.cores.set p1.1.to_uint32 (target.init p2.1.to_uint32) }
      let cur2 := s2.cur
      some (.None, s2.setCur { cur2 with ip := u32add cur2.ip 1, op_mode := .SIGNED })

/-- `i_activate_core`: pop a core id and set that core active.  The
source indexes `cores[core_id]` with no bounds check; `none` models the
out-of-bounds access. -/
def i_activate_core (s : VMState) : Option (Error × VMState) :=
  let core := s.cur
  let g := core.data.guard 1 0
  if g ≠ .None then some (g, s)
  else
    let p := core.data.pop
    let s1 := s.setCur { core with data := p.2 }
    match s1.cores.get? p.1.to_uint32 with
    | none => none
    | some target =>
      let s2 := { s1 with cores := s1.cores.set p.1.to_uint32 { target with active := true } }
      let cur2 := s2.cur
      some (.None, s2.setCur { cur2 with ip := u32add cur2.ip 1, op_mode := .SIGNED })

/-- `i_pause_core`: pop a core id and set that core inactive.  The
source indexes `cores[core_id]` with no bounds check; `none` models the
out-of-bounds access. -/
def i_pause_core (s : VMState) : Option (Error × VMState) :=
  let core := s.cur
  let g := core.data.guard 1 0
  if g ≠ .None then some (g, s)
  else
    let p := core.data.pop
    let s1 := s.setCur { core with data := p.2 }
    match s1.cores.get? p.1.to_uint32 with
    | none => none
    | some target =>
      let s2 := { s1 with cores := s1.cores.set p.1.to_uint32 { target with active := false } }
      let cur2 := s2.cur
      some (.None, s2.setCur { cur2 with ip := u32add cur2.ip 1, op_mode := .SIGNED })

/-- `i_suspend_cur_core`: deactivate the current core. -/
def i_suspend_cur_core (s : VMState) : Error × VMState :=
  (.None, s.setCur { s.cur with active := false,
                                ip := u32add s.cur.ip 1, op_mode := .SIGNED })

/-- `i_read_register`: pop a register id, push the register's value. -/
def i_read_register (s : VMState) : Error × VMState :=
  let core := s.cur
  let g := core.data.guard 1 1
  if g ≠ .None then (g, s)
  else
    let p := core.data.pop
    let rr := core.regs.read p.1.to_uint32
    if rr.1 ≠ .None then (rr.1, s.setCur { core with data := p.2 })
    else
      (.None, s.setCur { core with data := p.2.push rr.2,
                                   ip := u32add core.ip 1, op_mode := .SIGNED })

/-- `i_write_register`: pop a register id and a value, store the value. -/
def i_write_register (s : VMState) : Error × VMState :=
  let core := s.cur
  let g := core.data.guard 2 0
  if g ≠ .None then (g, s)
  else
    let p1 := core.data.pop
    let p2 := p1.2.pop
    let wr := core.regs.write p1.1.to_uint32 p2.1
    if wr.1 ≠ .None then (wr.1, s.setCur { core with data := p2.2 })
    else
      (.None, s.setCur { core with data := p2.2, regs := wr.2,
                                   ip := u32add core.ip 1, op_mode := .SIGNED })

/-- `i_copy_block`: pop length, destination and origin, copy the block. -/
def i_copy_block (s : VMState) : Error × VMState :=
  let core := s.cur
  let g := core.data.guard 3 0
  if g ≠ .None then (g, s)
  else
    let p1 := core.data.pop
    let p2 := p1.2.pop
    let p3 := p2.2.pop
    let cb := s.mem.copy_block p1.1.to_uint32 p2.1.to_uint32 p3.1.to_uint32
    if cb.1 ≠ .None then (cb.1, s.setCur { core with data := p3.2 })
    else
      (.None, { s.setCur { core with data := p3.2,
                                     ip := u32add core.ip 1, op_mode := .SIGNED }
                with mem := cb.2 })

/-- `i_block_compare`: pop length, destination and origin, push the
comparison result. -/
def i_block_compare (s : VMState) : Error × VMState :=
  let core := s.cur
  let g := core.data.guard 3 1
  if g ≠ .None then (g, s)
  else
    let p1 := core.data.pop
    let p2 := p1.2.pop
    let p3 := p2.2.pop
    let cb := s.mem.compare_block p1.1.to_uint32 p2.1.to_uint32 p3.1.to_uint32
    if cb.1 ≠ .None then (cb.1, s.setCur { core with data := p3.2 })
    else
      (.None, s.setCur { core with data := p3.2.push cb.2,
                                   ip := u32add core.ip 1, op_mode := .SIGNED })

/-- `i_unsigned_mode`: set UNSIGNED (no reset this cycle). -/
def i_unsigned_mode (s : VMState) : Error × VMState :=
  (.None, s.setCur { s.cur with ip := u32add s.cur.ip 1, op_mode := .UNSIGNED })

/-- `i_float_mode`: set FLOAT (no reset this cycle). -/
def i_float_mode (s : VMState) : Error × VMState :=
  (.None, s.setCur { s.cur with ip := u32add s.cur.ip 1, op_mode := .FLOAT })

/-- The 55-entry dispatch table of `interpret`, in the jump-table order
`NO, LW, LH, LB, FW, FH, FB, SW, SH, SB, DU, DR, SP, PU, PO, EQ, NE, LT,
GT, AD, SU, MU, DM, MD, AN, OR, XO, NT, SL, SR, PA, UN, RL, CA, CC, JU,
CJ, RE, CR, SV, HI, SI, TI, II, HS, IC, AC, PC, SC, RR, WR, CP, BC, UU,
FF`.  An opcode byte `≥ 55` indexes past the table: undefined behaviour,
modelled as `none`. -/
def dispatch (F : FloatSem) (op : Nat) (s : VMState) : Option (Error × VMState) :=
  match op with
  | 0 => some (i_nop s)
  | 1 => some (i_load 4 4 8 s)
  | 2 => some (i_load 2 1 3 s)
  | 3 => some (i_load 1 1 2 s)
  | 4 => some (i_fetch 4 s)
  | 5 => some (i_fetch 2 s)
  | 6 => some (i_fetch 1 s)
  | 7 => some (i_store 4 s)
  | 8 => some (i_store 2 s)
  | 9 => some (i_store 1 s)
  | 10 => some (i_dupe s)
  | 11 => some (i_drop s)
  | 12 => some (i_swap s)
  | 13 => some (i_push_address s)
  | 14 => some (i_pop_address s)
  | 15 => some (i_binary_op2 Cell.equal s)
  | 16 => some (i_binary_op2 Cell.not_equal s)
  | 17 => some (i_binary_op3 (Cell.less_than F) s)
  | 18 => some (i_binary_op3 (Cell.greater_than F) s)
  | 19 => some (i_binary_op3 (Cell.add F) s)
  | 20 => some (i_binary_op3 (Cell.subtract F) s)
  | 21 => some (i_binary_op3 (Cell.multiply F) s)
  | 22 => some (i_divide_remainder F s)
  | 23 => some (i_multiply_divide_remainder F s)
  | 24 => some (i_binary_op2 Cell.bitwise_and s)
  | 25 => some (i_binary_op2 Cell.bitwise_or s)
  | 26 => some (i_binary_op2 Cell.bitwise_xor s)
  | 27 => some (i_not s)
  | 28 => some (i_shift_left s)
  | 29 => some (i_shift_right s)
  | 30 => some (i_pack_bytes s)
  | 31 => some (i_unpack_bytes s)
  | 32 => some (i_relative s)
  | 33 => some (i_call s)
  | 34 => some (i_conditional_call s)
  | 35 => some (i_jump s)
  | 36 => some (i_conditional_jump s)
  | 37 => some (i_return s)
  | 38 => some (i_conditional_return s)
  | 39 => some (i_set_interrupt s)
  | 40 => some (i_halt_interrupts s)
  | 41 => some (i_start_interrupts s)
  | 42 => some (i_trigger_interrupt s)
  | 43 => i_invoke_io s
  | 44 => some (i_halt_system s)
  | 45 => i_init_core s
  | 46 => i_activate_core s
  | 47 => i_pause_core s
  | 48 => some (i_suspend_cur_core s)
  | 49 => some (i_read_register s)
  | 50 => some (i_write_register s)
  | 51 => some (i_copy_block s)
  | 52 => some (i_block_compare s)
  | 53 => some (i_unsigned_mode s)
  | 54 => some (i_float_mode s)
  | _ => none

/-- The possible outcomes of running the `interpret` loop for a bounded
number of ticks. -/
inductive Outcome where
  /-- `interpret` returned this status, leaving this state. -/
  | done (e : Error) (s : VMState)
  /-- The fuel ran out with the loop still going. -/
  | running (s : VMState)
  /-- An undefined-behaviour access was reached. -/
  | ub
deriving DecidableEq, Repr

/-- The fetch–dispatch loop of `interpret`: select the next core, fetch
the opcode at its ip (returning the fetch status when it is not `None`),
dispatch, and return any non-`None` handler status immediately. -/
def interpretGo (F : FloatSem) : Nat → VMState → Outcome
  | 0, s => .running s
  | fuel + 1, s =>
    let s1 := s.sel_next_core
    let fo := s1.mem.fetch_opcode s1.cur.ip
    if fo.1 ≠ .None then .done fo.1 s1
    else
      match dispatch F fo.2 s1 with
      | none => .ub
      | some (err, s2) =>
        if err ≠ .None then .done err s2 else interpretGo F fuel s2

/-- `interpret`: initialise `cur_core_id = CORE_COUNT - 1` so the first
tick selects core 0, then run the loop. -/
def interpret (F : FloatSem) (fuel : Nat) (s : VMState) : Outcome :=
  interpretGo F fuel { s with cur_core_id := CORE_COUNT - 1 }

/-- The status of an outcome, when the loop returned. -/
def Outcome.status : Outcome → Option Error
  | .done e _ => some e
  | _ => none

/-- The per-tick schedule of a run: the id of the core selected and
executed at each successful tick (stopping at any non-`None` status,
undefined behaviour or fuel exhaustion). -/
def schedTrace (F : FloatSem) : Nat → VMState → List Nat
  | 0, _ => []
  | fuel + 1, s =>
    let s1 := s.sel_next_core
    let fo := s1.mem.fetch_opcode s1.cur.ip
    if fo.1 ≠ .None then []
    else
      match dispatch F fo.2 s1 with
      | none => []
      | some (err, s2) =>
        if err ≠ .None then [] else s1.cur_core_id :: schedTrace F fuel s2

end VMState

/-! ### Helper lemmas -/

namespace VMState

theorem cur_setCur (s : VMState) (c : Core) :
    (s.setCur c).cur = if s.cur_core_id < s.cores.length then c else s.cur := by
  unfold VMState.cur VMState.setCur
  by_cases h : s.cur_core_id < s.cores.length
  · simp only [h, if_pos, List.getD_eq_getElem?_getD,
      List.getElem?_set_self (by simpa using h)]
    rfl
  · simp only [h, if_neg, not_false_iff, List.getD_eq_getElem?_getD]
    rw [List.set_eq_of_length_le (by omega)]

theorem cur_core_id_setCur (s : VMState) (c : Core) :
    (s.setCur c).cur_core_id = s.cur_core_id := rfl

/-- The fields an instruction handler must leave intact on its error
paths: the scheduling position and the executing core's ip and mode
fields. -/
def ErrPreserves (s t : VMState) : Prop :=
  t.cur_core_id = s.cur_core_id ∧ t.cur.ip = s.cur.ip ∧
    t.cur.op_mode = s.cur.op_mode ∧ t.cur.addr_mode = s.cur.addr_mode

theorem errPreserves_refl (s : VMState) : ErrPreserves s s :=
  ⟨rfl, rfl, rfl, rfl⟩

theorem errPreserves_setCur (s : VMState) (c : Core)
    (h1 : c.ip = s.cur.ip) (h2 : c.op_mode = s.cur.op_mode)
    (h3 : c.addr_mode = s.cur.addr_mode) : ErrPreserves s (s.setCur c) := by
  refine ⟨rfl, ?_, ?_, ?_⟩ <;> rw [cur_setCur] <;> split <;> simp [h1, h2, h3]

theorem i_fetch_errPreserves (S : Nat) (s : VMState) (h : (i_fetch S s).1 ≠ Error.None) :
    ErrPreserves s (i_fetch S s).2 := by
  simp only [i_fetch] at h ⊢
  split_ifs at h ⊢ with hg hr
  · exact errPreserves_refl s
  · exact errPreserves_setCur s _ rfl rfl rfl
  · simp at h

theorem i_load_errPreserves (S o l : Nat) (s : VMState) (h : (i_load S o l s).1 ≠ Error.None) :
    ErrPreserves s (i_load S o l s).2 := by
  simp only [i_load] at h ⊢
  split_ifs at h ⊢ with hg hr
  · exact errPreserves_refl s
  · exact errPreserves_refl s
  · simp at h

theorem i_store_errPreserves (S : Nat) (s : VMState) (h : (i_store S s).1 ≠ Error.None) :
    ErrPreserves s (i_store S s).2 := by
  simp only [i_store] at h ⊢
  split_ifs at h ⊢ with hg hw
  · exact errPreserves_refl s
  · exact errPreserves_setCur s _ rfl rfl rfl
  · simp at h

theorem i_dupe_errPreserves (s : VMState) (h : (i_dupe s).1 ≠ Error.None) :
    ErrPreserves s (i_dupe s).2 := by
  simp only [i_dupe] at h ⊢
  split_ifs at h ⊢ with hg
  · exact errPreserves_refl s
  · simp at h

theorem i_drop_errPreserves (s : VMState) (h : (i_drop s).1 ≠ Error.None) :
    ErrPreserves s (i_drop s).2 := by
  simp only [i_drop] at h ⊢
  split_ifs at h ⊢ with hg
  · exact errPreserves_refl s
  · simp at h

theorem i_swap_errPreserves (s : VMState) (h : (i_swap s).1 ≠ Error.None) :
    ErrPreserves s (i_swap s).2 := by
  simp only [i_swap] at h ⊢
  split_ifs at h ⊢ with hg
  · exact errPreserves_refl s
  · simp at h

theorem i_push_address_errPreserves (s : VMState) (h : (i_push_address s).1 ≠ Error.None) :
    ErrPreserves s (i_push_address s).2 := by
  simp only [i_push_address] at h ⊢
  split_ifs at h ⊢ with hg hp
  · exact errPreserves_refl s
  · exact errPreserves_setCur s _ rfl rfl rfl
  · simp at h

theorem i_pop_address_errPreserves (s : VMState) (h : (i_pop_address s).1 ≠ Error.None) :
    ErrPreserves s (i_pop_address s).2 := by
  simp only [i_pop_address] at h ⊢
  split_ifs at h ⊢ with hg hp
  · exact errPreserves_refl s
  · exact errPreserves_refl s
  · simp at h

theorem i_binary_op2_errPreserves (op : Cell → Cell → Cell) (s : VMState)
    (h : (i_binary_op2 op s).1 ≠ Error.None) : ErrPreserves s (i_binary_op2 op s).2 := by
  simp only [i_binary_op2] at h ⊢
  split_ifs at h ⊢ with hg
  · exact errPreserves_refl s
  · simp at h

theorem i_binary_op3_errPreserves (op : Cell → Cell → OpMode → Cell) (s : VMState)
    (h : (i_binary_op3 op s).1 ≠ Error.None) : ErrPreserves s (i_binary_op3 op s).2 := by
  simp only [i_binary_op3] at h ⊢
  split_ifs at h ⊢ with hg
  · exact errPreserves_refl s
  · simp at h

theorem i_binary_opR_errPreserves (op : Cell → Cell → OpMode → Error × Cell) (s : VMState)
    (h : (i_binary_opR op s).1 ≠ Error.None) : ErrPreserves s (i_binary_opR op s).2 := by
  simp only [i_binary_opR] at h ⊢
  split_ifs at h ⊢ with hg he
  · exact errPreserves_refl s
  · simp_all
  · simp at h

theorem i_divide_remainder_errPreserves (F : FloatSem) (s : VMState)
    (h : (i_divide_remainder F s).1 ≠ Error.None) :
    ErrPreserves s (i_divide_remainder F s).2 := by
  simp only [i_divide_remainder] at h ⊢
  split_ifs at h ⊢ with hg he
  · exact errPreserves_refl s
  · exact errPreserves_setCur s _ rfl rfl rfl
  · simp at h

theorem i_multiply_divide_remainder_errPreserves (F : FloatSem) (s : VMState)
    (h : (i_multiply_divide_remainder F s).1 ≠ Error.None) :
    ErrPreserves s (i_multiply_divide_remainder F s).2 := by
  simp only [i_multiply_divide_remainder] at h ⊢
  split_ifs at h ⊢ with hg he
  · exact errPreserves_refl s
  · exact errPreserves_setCur s _ rfl rfl rfl
  · simp at h

theorem i_not_errPreserves (s : VMState) (h : (i_not s).1 ≠ Error.None) :
    ErrPreserves s (i_not s).2 := by
  simp only [i_not] at h ⊢
  split_ifs at h ⊢ with hg
  · exact errPreserves_refl s
  · simp at h

theorem i_pack_bytes_errPreserves (s : VMState) (h : (i_pack_bytes s).1 ≠ Error.None) :
    ErrPreserves s (i_pack_bytes s).2 := by
  simp only [i_pack_bytes] at h ⊢
  split_ifs at h ⊢ with hg
  · exact errPreserves_refl s
  · simp at h

theorem i_unpack_bytes_errPreserves (s : VMState) (h : (i_unpack_bytes s).1 ≠ Error.None) :
    ErrPreserves s (i_unpack_bytes s).2 := by
  simp only [i_unpack_bytes] at h ⊢
  split_ifs at h ⊢ with hg
  · exact errPreserves_refl s
  · simp at h

theorem i_call_errPreserves (s : VMState) (h : (i_call s).1 ≠ Error.None) :
    ErrPreserves s (i_call s).2 := by
  simp only [i_call] at h ⊢
  split_ifs at h ⊢ with hg hp
  · exact errPreserves_refl s
  · exact errPreserves_refl s
  · simp at h

theorem i_conditional_call_errPreserves (s : VMState)
    (h : (i_conditional_call s).1 ≠ Error.None) :
    ErrPreserves s (i_conditional_call s).2 := by
  simp only [i_conditional_call] at h ⊢
  split_ifs at h ⊢ with hg hc hp
  · exact errPreserves_refl s
  · exact errPreserves_setCur s _ rfl rfl rfl
  · simp at h
  · simp at h

theorem i_jump_errPreserves (s : VMState) (h : (i_jump s).1 ≠ Error.None) :
    ErrPreserves s (i_jump s).2 := by
  simp only [i_jump] at h ⊢
  split_ifs at h ⊢ with hg
  · exact errPreserves_refl s
  · simp at h

theorem i_conditional_jump_errPreserves (s : VMState)
    (h : (i_conditional_jump s).1 ≠ Error.None) :
    ErrPreserves s (i_conditional_jump s).2 := by
  simp only [i_conditional_jump] at h ⊢
  split_ifs at h ⊢ with hg hc
  · exact errPreserves_refl s
  · simp at h
  · simp at h

theorem i_return_errPreserves (s : VMState) (h : (i_return s).1 ≠ Error.None) :
    ErrPreserves s (i_return s).2 := by
  simp only [i_return] at h ⊢
  split_ifs at h ⊢ with hp
  · exact errPreserves_refl s
  · simp at h

theorem i_conditional_return_errPreserves (s : VMState)
    (h : (i_conditional_return s).1 ≠ Error.None) :
    ErrPreserves s (i_conditional_return s).2 := by
  simp only [i_conditional_return] at h ⊢
  split_ifs at h ⊢ with hg hc hp
  · exact errPreserves_refl s
  · exact errPreserves_setCur s _ rfl rfl rfl
  · simp at h
  · simp at h

theorem i_set_interrupt_errPreserves (s : VMState)
    (h : (i_set_interrupt s).1 ≠ Error.None) :
    ErrPreserves s (i_set_interrupt s).2 := by
  simp only [i_set_interrupt] at h ⊢
  split_ifs at h ⊢ with hg he
  · exact errPreserves_refl s
  · exact errPreserves_setCur s _ rfl rfl rfl
  · simp at h

theorem i_trigger_interrupt_errPreserves (s : VMState)
    (h : (i_trigger_interrupt s).1 ≠ Error.None) :
    ErrPreserves s (i_trigger_interrupt s).2 := by
  simp only [i_trigger_interrupt] at h ⊢
  split_ifs at h ⊢ with hg
  · exact errPreserves_refl s
  · simp at h

theorem i_read_register_errPreserves (s : VMState)
    (h : (i_read_register s).1 ≠ Error.None) :
    ErrPreserves s (i_read_register s).2 := by
  simp only [i_read_register] at h ⊢
  split_ifs at h ⊢ with hg hr
  · exact errPreserves_refl s
  · exact errPreserves_setCur s _ rfl rfl rfl
  · simp at h

theorem i_write_register_errPreserves (s : VMState)
    (h : (i_write_register s).1 ≠ Error.None) :
    ErrPreserves s (i_write_register s).2 := by
  simp only [i_write_register] at h ⊢
  split_ifs at h ⊢ with hg hw
  · exact errPreserves_refl s
  · exact errPreserves_setCur s _ rfl rfl rfl
  · simp at h

theorem i_copy_block_errPreserves (s : VMState)
    (h : (i_copy_block s).1 ≠ Error.None) :
    ErrPreserves s (i_copy_block s).2 := by
  simp only [i_copy_block] at h ⊢
  split_ifs at h ⊢ with hg hc
  · exact errPreserves_refl s
  · exact errPreserves_setCur s _ rfl rfl rfl
  · simp at h

theorem i_block_compare_errPreserves (s : VMState)
    (h : (i_block_compare s).1 ≠ Error.None) :
    ErrPreserves s (i_block_compare s).2 := by
  simp only [i_block_compare] at h ⊢
  split_ifs at h ⊢ with hg hc
  · exact errPreserves_refl s
  · exact errPreserves_setCur s _ rfl rfl rfl
  · simp at h

theorem i_halt_system_errPreserves (s : VMState) :
    ErrPreserves s (i_halt_system s).2 := errPreserves_refl s

theorem i_invoke_io_errPreserves (s : VMState) (e : Error) (t : VMState)
    (h : i_invoke_io s = some (e, t)) (he : e ≠ Error.None) : ErrPreserves s t := by
  simp only [i_invoke_io] at h
  split_ifs at h with hg
  · injection h with h
    injection h with h1 h2
    subst h1; subst h2
    exact errPreserves_refl s
  · split at h
    · exact absurd h (by simp)
    · injection h with h
      injection h with h1 h2
      exact absurd h1.symm he

theorem i_init_core_errPreserves (s : VMState) (e : Error) (t : VMState)
    (h : i_init_core s = some (e, t)) (he : e ≠ Error.None) : ErrPreserves s t := by
  simp only [i_init_core] at h
  split_ifs at h with hg
  · injection h with h
    injection h with h1 h2
    subst h1; subst h2
    exact errPreserves_refl s
  · split at h
    · exact absurd h (by simp)
    · injection h with h
      injection h with h1 h2
      exact absurd h1.symm he

theorem i_activate_core_errPreserves (s : VMState) (e : Error) (t : VMState)
    (h : i_activate_core s = some (e, t)) (he : e ≠ Error.None) : ErrPreserves s t := by
  simp only [i_activate_core] at h
  split_ifs at h with hg
  · injection h with h
    injection h with h1 h2
    subst h1; subst h2
    exact errPreserves_refl s
  · split at h
    · exact absurd h (by simp)
    · injection h with h
      injection h with h1 h2
      exact absurd h1.symm he

theorem i_pause_core_errPreserves (s : VMState) (e : Error) (t : VMState)
    (h : i_pause_core s = some (e, t)) (he : e ≠ Error.None) : ErrPreserves s t := by
  simp only [i_pause_core] at h
  split_ifs at h with hg
  · injection h with h
    injection h with h1 h2
    subst h1; subst h2
    exact errPreserves_refl s
  · split at h
    · exact absurd h (by simp)
    · injection h with h
      injection h with h1 h2
      exact absurd h1.symm he

theorem i_nop_fst (s : VMState) : (i_nop s).1 = Error.None := rfl

theorem i_relative_fst (s : VMState) : (i_relative s).1 = Error.None := rfl

theorem i_halt_interrupts_fst (s : VMState) : (i_halt_interrupts s).1 = Error.None := rfl

theorem i_start_interrupts_fst (s : VMState) : (i_start_interrupts s).1 = Error.None := rfl

theorem i_suspend_cur_core_fst (s : VMState) : (i_suspend_cur_core s).1 = Error.None := rfl

theorem i_unsigned_mode_fst (s : VMState) : (i_unsigned_mode s).1 = Error.None := rfl

theorem i_float_mode_fst (s : VMState) : (i_float_mode s).1 = Error.None := rfl

theorem errPreserves_of_total (f : VMState → Error × VMState)
    (hf : ∀ u, (f u).1 ≠ Error.None → ErrPreserves u (f u).2)
    (s : VMState) (e : Error) (t : VMState) (h : f s = (e, t)) (he : e ≠ Error.None) :
    ErrPreserves s t := by
  have h1 : e = (f s).1 := by rw [h]
  have h2 : t = (f s).2 := by rw [h]
  subst h2
  exact hf s (fun hc => he (h1.trans hc))

theorem errPreserves_of_infallible (f : VMState → Error × VMState)
    (hf : ∀ u, (f u).1 = Error.None)
    (s : VMState) (e : Error) (t : VMState) (h : f s = (e, t)) (he : e ≠ Error.None) :
    ErrPreserves s t := by
  exfalso
  apply he
  have h1 : e = (f s).1 := by rw [h]
  rw [h1, hf]

/-- Any non-`None` status a dispatched handler reports comes with the
executing core's ip, operation mode and address mode (and the scheduling
position) unchanged from the state the handler started in. -/
theorem dispatch_errPreserves (F : FloatSem) (op : Nat) (s : VMState) (e : Error)
    (t : VMState) (h : dispatch F op s = some (e, t)) (he : e ≠ Error.None) :
    ErrPreserves s t := by
  unfold dispatch at h
  split at h
  · exact errPreserves_of_infallible _ i_nop_fst _ _ _ (Option.some.inj h) he
  · exact errPreserves_of_total _ (i_load_errPreserves _ _ _) _ _ _ (Option.some.inj h) he
  · exact errPreserves_of_total _ (i_load_errPreserves _ _ _) _ _ _ (Option.some.inj h) he
  · exact errPreserves_of_total _ (i_load_errPreserves _ _ _) _ _ _ (Option.some.inj h) he
  · exact errPreserves_of_total _ (i_fetch_errPreserves _) _ _ _ (Option.some.inj h) he
  · exact errPreserves_of_total _ (i_fetch_errPreserves _) _ _ _ (Option.some.inj h) he
  · exact errPreserves_of_total _ (i_fetch_errPreserves _) _ _ _ (Option.some.inj h) he
  · exact errPreserves_of_total _ (i_store_errPreserves _) _ _ _ (Option.some.inj h) he
  · exact errPreserves_of_total _ (i_store_errPreserves _) _ _ _ (Option.some.inj h) he
  · exact errPreserves_of_total _ (i_store_errPreserves _) _ _ _ (Option.some.inj h) he
  · exact errPreserves_of_total _ i_dupe_errPreserves _ _ _ (Option.some.inj h) he
  · exact errPreserves_of_total _ i_drop_errPreserves _ _ _ (Option.some.inj h) he
  · exact errPreserves_of_total _ i_swap_errPreserves _ _ _ (Option.some.inj h) he
  · exact errPreserves_of_total _ i_push_address_errPreserves _ _ _ (Option.some.inj h) he
  · exact errPreserves_of_total _ i_pop_address_errPreserves _ _ _ (Option.some.inj h) he
  · exact errPreserves_of_total _ (i_binary_op2_errPreserves _) _ _ _ (Option.some.inj h) he
  · exact errPreserves_of_total _ (i_binary_op2_errPreserves _) _ _ _ (Option.some.inj h) he
  · exact errPreserves_of_total _ (i_binary_op3_errPreserves _) _ _ _ (Option.some.inj h) he
  · exact errPreserves_of_total _ (i_binary_op3_errPreserves _) _ _ _ (Option.some.inj h) he
  · exact errPreserves_of_total _ (i_binary_op3_errPreserves _) _ _ _ (Option.some.inj h) he
  · exact errPreserves_of_total _ (i_binary_op3_errPreserves _) _ _ _ (Option.some.inj h) he
  · exact errPreserves_of_total _ (i_binary_op3_errPreserves _) _ _ _ (Option.some.inj h) he
  · exact errPreserves_of_total _ (i_divide_remainder_errPreserves F) _ _ _ (Option.some.inj h) he
  · exact errPreserves_of_total _ (i_multiply_divide_remainder_errPreserves F) _ _ _ (Option.some.inj h) he
  · exact errPreserves_of_total _ (i_binary_op2_errPreserves _) _ _ _ (Option.some.inj h) he
  · exact errPreserves_of_total _ (i_binary_op2_errPreserves _) _ _ _ (Option.some.inj h) he
  · exact errPreserves_of_total _ (i_binary_op2_errPreserves _) _ _ _ (Option.some.inj h) he
  · exact errPreserves_of_total _ i_not_errPreserves _ _ _ (Option.some.inj h) he
  · exact errPreserves_of_total _ (i_binary_opR_errPreserves _) _ _ _ (Option.some.inj h) he
  · exact errPreserves_of_total _ (i_binary_opR_errPreserves _) _ _ _ (Option.some.inj h) he
  · exact errPreserves_of_total _ i_pack_bytes_errPreserves _ _ _ (Option.some.inj h) he
  · exact errPreserves_of_total _ i_unpack_bytes_errPreserves _ _ _ (Option.some.inj h) he
  · exact errPreserves_of_infallible _ i_relative_fst _ _ _ (Option.some.inj h) he
  · exact errPreserves_of_total _ i_call_errPreserves _ _ _ (Option.some.inj h) he
  · exact errPreserves_of_total _ i_conditional_call_errPreserves _ _ _ (Option.some.inj h) he
  · exact errPreserves_of_total _ i_jump_errPreserves _ _ _ (Option.some.inj h) he
  · exact errPreserves_of_total _ i_conditional_jump_errPreserves _ _ _ (Option.some.inj h) he
  · exact errPreserves_of_total _ i_return_errPreserves _ _ _ (Option.some.inj h) he
  · exact errPreserves_of_total _ i_conditional_return_errPreserves _ _ _ (Option.some.inj h) he
  · exact errPreserves_of_total _ i_set_interrupt_errPreserves _ _ _ (Option.some.inj h) he
  · exact errPreserves_of_infallible _ i_halt_interrupts_fst _ _ _ (Option.some.inj h) he
  · exact errPreserves_of_infallible _ i_start_interrupts_fst _ _ _ (Option.some.inj h) he
  · exact errPreserves_of_total _ i_trigger_interrupt_errPreserves _ _ _ (Option.some.inj h) he
  · exact i_invoke_io_errPreserves _ _ _ h he
  · exact errPreserves_of_total _ (fun u _ => i_halt_system_errPreserves u) _ _ _ (Option.some.inj h) he
  · exact i_init_core_errPreserves _ _ _ h he
  · exact i_activate_core_errPreserves _ _ _ h he
  · exact i_pause_core_errPreserves _ _ _ h he
  · exact errPreserves_of_infallible _ i_suspend_cur_core_fst _ _ _ (Option.some.inj h) he
  · exact errPreserves_of_total _ i_read_register_errPreserves _ _ _ (Option.some.inj h) he
  · exact errPreserves_of_total _ i_write_register_errPreserves _ _ _ (Option.some.inj h) he
  · exact errPreserves_of_total _ i_copy_block_errPreserves _ _ _ (Option.some.inj h) he
  · exact errPreserves_of_total _ i_block_compare_errPreserves _ _ _ (Option.some.inj h) he
  · exact errPreserves_of_infallible _ i_unsigned_mode_fst _ _ _ (Option.some.inj h) he
  · exact errPreserves_of_infallible _ i_float_mode_fst _ _ _ (Option.some.inj h) he
  · exact Option.noConfusion h

end VMState

namespace Memory

theorem length_depositBytes (bs : List Nat) (arr : List Nat) (a : Nat) :
    (depositBytes arr a bs).length = arr.length := by
  induction bs generalizing arr a with
  | nil => rfl
  | cons b rest ih => simp [depositBytes, ih, List.length_set]

theorem getD_depositBytes_lt (bs : List Nat) (arr : List Nat) (a j : Nat) (hj : j < a) :
    (depositBytes arr a bs).getD j 0 = arr.getD j 0 := by
  induction bs generalizing arr a with
  | nil => rfl
  | cons b rest ih =>
    rw [depositBytes, ih _ _ (by omega)]
    simp [List.getD_eq_getElem?_getD, List.getElem?_set_ne (by omega : a ≠ j)]

theorem getD_depositBytes (bs : List Nat) (arr : List Nat) (a j : Nat)
    (hj : j < bs.length) (hbound : a + bs.length ≤ arr.length) :
    (depositBytes arr a bs).getD (a + j) 0 = bs.getD j 0 := by
  induction bs generalizing arr a j with
  | nil => simp at hj
  | cons b rest ih =>
    rw [depositBytes]
    cases j with
    | zero =>
      rw [getD_depositBytes_lt _ _ _ _ (by omega)]
      simp only [Nat.add_zero]
      have ha : a < arr.length := by simp only [List.length_cons] at hbound; omega
      simp [List.getD_eq_getElem?_getD, List.getElem?_set_self ha]
    | succ j' =>
      have h1 : a + (j' + 1) = (a + 1) + j' := by omega
      rw [h1, ih _ _ _ (by simpa using hj)
            (by simp only [List.length_set]; simp only [List.length_cons] at hbound; omega)]
      rfl

theorem getD_deposit_take (m : Memory) (hm : m.arr.length = MEMORY_SIZE)
    (N addr : Nat) (v : Cell) (hin : addr + N ≤ MEMORY_SIZE) (hN4 : N ≤ 4)
    (i : Nat) (hi : i < N) :
    (depositBytes m.arr addr (v.bytesList.take N)).getD (addr + i) 0 =
      v.bytesList.getD i 0 := by
  have hlen : (v.bytesList.take N).length = N := by
    rw [List.length_take]
    simp [Cell.bytesList]
    omega
  rw [getD_depositBytes _ _ _ _ (by rw [hlen]; exact hi) (by rw [hlen, hm]; exact hin)]
  simp [List.getD_eq_getElem?_getD, List.getElem?_take, hi]

end Memory

/-! ### Claim theorems -/

/-- C9: for every `N ∈ {1, 2, 4}`, every `addr` with `addr + N ≤
MEMORY_SIZE` and every cell `v`, `write_bytes<N>(addr, v)` succeeds and a
subsequent `read_bytes<N>(addr)` succeeds and yields the cell holding the
low `N` bytes of `v` with the remaining high bytes zero; for `addr + N >
MEMORY_SIZE` both operations return `IllegalMemoryAddress` and
`write_bytes` leaves the memory unchanged. -/
theorem write_read_roundtrip (N : Nat) (hN : N = 1 ∨ N = 2 ∨ N = 4)
    (m : Memory) (hm : m.arr.length = MEMORY_SIZE) (addr : Nat) (v : Cell) :
    (addr + N ≤ MEMORY_SIZE →
      (m.write_bytes N addr v).1 = Error.None ∧
      (m.write_bytes N addr v).2.read_bytes N addr =
        (Error.None, Cell.mk v.b0 (if 1 < N then v.b1 else 0)
            (if 2 < N then v.b2 else 0) (if 3 < N then v.b3 else 0))) ∧
    (addr + N > MEMORY_SIZE →
      m.read_bytes N addr = (Error.IllegalMemoryAddress, default) ∧
      m.write_bytes N addr v = (Error.IllegalMemoryAddress, m)) := by
  constructor
  · intro hin
    have hnot : ¬(addr + N > MEMORY_SIZE) := by omega
    refine ⟨by simp [Memory.write_bytes, hnot], ?_⟩
    simp only [Memory.write_bytes, if_neg hnot, Memory.read_bytes]
    rcases hN with rfl | rfl | rfl
    · have h0 := Memory.getD_deposit_take m hm 1 addr v hin (by omega) 0 (by omega)
      simp [Cell.bytesList] at h0
      simp [Cell.bytesList, h0]
    · have h0 := Memory.getD_deposit_take m hm 2 addr v hin (by omega) 0 (by omega)
      have h1 := Memory.getD_deposit_take m hm 2 addr v hin (by omega) 1 (by omega)
      simp [Cell.bytesList] at h0 h1
      simp [Cell.bytesList, h0, h1]
    · have h0 := Memory.getD_deposit_take m hm 4 addr v hin (by omega) 0 (by omega)
      have h1 := Memory.getD_deposit_take m hm 4 addr v hin (by omega) 1 (by omega)
      have h2 := Memory.getD_deposit_take m hm 4 addr v hin (by omega) 2 (by omega)
      have h3 := Memory.getD_deposit_take m hm 4 addr v hin (by omega) 3 (by omega)
      simp [Cell.bytesList] at h0 h1 h2 h3
      simp [Cell.bytesList, h0, h1, h2, h3]
  · intro hout
    exact ⟨by simp [Memory.read_bytes, hout], by simp [Memory.write_bytes, hout]⟩

/-- Witness for C9: the roundtrip at `N = 4`, `addr = 0`,
`v = ⟨1, 2, 3, 4⟩` on the zeroed memory. -/
theorem write_read_roundtrip_witness :
    (Memory.zeroed.write_bytes 4 0 ⟨1, 2, 3, 4⟩).1 = Error.None ∧
    (Memory.zeroed.write_bytes 4 0 ⟨1, 2, 3, 4⟩).2.read_bytes 4 0 =
      (Error.None, Cell.mk 1 2 3 4) :=
  (write_read_roundtrip 4 (Or.inr (Or.inr rfl)) Memory.zeroed
      (by simp [Memory.zeroed]) 0 ⟨1, 2, 3, 4⟩).1 (by decide)

/-- A VM whose memory holds the single-instruction program `HS` (opcode
44 at address 0). -/
def haltProgState : VMState := { VMState.initial with mem := Memory.loaded [44] }

/-- C7: whenever the dispatched instruction handler returns a non-`None`
status, the `interpret` loop returns that same status immediately (the
very same tick, with no further instruction executed on any core), and
the executing core's ip, op_mode and addr_mode still hold the values
they had when the instruction began. -/
theorem interpret_error_propagation (F : FloatSem) (fuel : Nat) (s : VMState)
    (op : Nat) (e : Error) (t : VMState)
    (hfetch : (s.sel_next_core.mem.fetch_opcode s.sel_next_core.cur.ip).1 = Error.None)
    (hop : (s.sel_next_core.mem.fetch_opcode s.sel_next_core.cur.ip).2 = op)
    (hdisp : VMState.dispatch F op s.sel_next_core = some (e, t))
    (he : e ≠ Error.None) :
    VMState.interpretGo F (fuel + 1) s = VMState.Outcome.done e t ∧
    t.cur_core_id = s.sel_next_core.cur_core_id ∧
    t.cur.ip = s.sel_next_core.cur.ip ∧
    t.cur.op_mode = s.sel_next_core.cur.op_mode ∧
    t.cur.addr_mode = s.sel_next_core.cur.addr_mode := by
  have hpres := VMState.dispatch_errPreserves F op s.sel_next_core e t hdisp he
  refine ⟨?_, hpres.1, hpres.2.1, hpres.2.2.1, hpres.2.2.2⟩
  simp only [VMState.interpretGo, hfetch, hop, hdisp, ne_eq, not_true_eq_false,
    if_false]
  simp [he]

/-- Witness for C7: a single-instruction `HS` program; the handler
reports `SystemHalt` and the loop stops at once with the core state
intact. -/
theorem interpret_error_propagation_witness :
    VMState.interpretGo natFloatSem (0 + 1) haltProgState =
      VMState.Outcome.done Error.SystemHalt haltProgState.sel_next_core ∧
    haltProgState.sel_next_core.cur_core_id = haltProgState.sel_next_core.cur_core_id ∧
    haltProgState.sel_next_core.cur.ip = haltProgState.sel_next_core.cur.ip ∧
    haltProgState.sel_next_core.cur.op_mode = haltProgState.sel_next_core.cur.op_mode ∧
    haltProgState.sel_next_core.cur.addr_mode = haltProgState.sel_next_core.cur.addr_mode :=
  interpret_error_propagation natFloatSem 0 haltProgState 44 Error.SystemHalt
    haltProgState.sel_next_core rfl rfl rfl (by decide)

theorem DataStack.guard_two_implies_one (st : DataStack)
    (h : st.guard 2 0 = Error.None) : st.guard 1 0 = Error.None := by
  unfold DataStack.guard at h ⊢
  split_ifs at h ⊢ <;> simp_all

/-- The data stack with the cells `7` and `5` pushed (so the next pop
yields `5`). -/
def c10Stack : DataStack := (DataStack.empty.push (Cell.ofNat32 7)).push (Cell.ofNat32 5)

/-- A two-core VM whose core 0 has `7` and `5` on the data stack. -/
def c10State : VMState :=
  { VMState.initial with cores := [{ Core.initial with data := c10Stack }, Core.initial] }

/-- C10: the `IC`, `AC` and `PC` handlers index the cores array with the
popped id and no bounds check: when the popped id is below `CORE_COUNT`
they complete with status `None`, and for any popped id `≥ CORE_COUNT`
the access is out of bounds (undefined behaviour, not an error status). -/
theorem core_ops_unchecked_indexing (s : VMState) (hlen : s.cores.length = CORE_COUNT)
    (hg : s.cur.data.guard 2 0 = Error.None) :
    (s.cur.data.pop.1.to_uint32 < CORE_COUNT →
       (∃ t, VMState.i_init_core s = some (Error.None, t)) ∧
       (∃ t, VMState.i_activate_core s = some (Error.None, t)) ∧
       (∃ t, VMState.i_pause_core s = some (Error.None, t))) ∧
    (s.cur.data.pop.1.to_uint32 ≥ CORE_COUNT →
       VMState.i_init_core s = none ∧
       VMState.i_activate_core s = none ∧
       VMState.i_pause_core s = none) := by
  have hg1 : s.cur.data.guard 1 0 = Error.None := s.cur.data.guard_two_implies_one hg
  have hlen' : ∀ c : Core, (s.setCur c).cores.length = CORE_COUNT := by
    intro c
    simp [VMState.setCur, List.length_set, hlen]
  constructor
  · intro hlt
    refine ⟨?_, ?_, ?_⟩
    · simp only [VMState.i_init_core, hg, ne_eq, not_true_eq_false, if_false,
        reduceCtorEq, ite_false]
      split
      · next hnone =>
          rw [List.get?_eq_none] at hnone
          rw [hlen'] at hnone
          omega
      · exact ⟨_, rfl⟩
    · simp only [VMState.i_activate_core, hg1, ne_eq, not_true_eq_false, if_false,
        reduceCtorEq, ite_false]
      split
      · next hnone =>
          rw [List.get?_eq_none] at hnone
          rw [hlen'] at hnone
          omega
      · exact ⟨_, rfl⟩
    · simp only [VMState.i_pause_core, hg1, ne_eq, not_true_eq_false, if_false,
        reduceCtorEq, ite_false]
      split
      · next hnone =>
          rw [List.get?_eq_none] at hnone
          rw [hlen'] at hnone
          omega
      · exact ⟨_, rfl⟩
  · intro hge
    have hnone : ∀ c : Core,
        (s.setCur c).cores.get? s.cur.data.pop.1.to_uint32 = none := by
      intro c
      rw [List.get?_eq_none, hlen']
      omega
    refine ⟨?_, ?_, ?_⟩
    · simp only [VMState.i_init_core, hg, ne_eq, not_true_eq_false, if_false,
        reduceCtorEq, ite_false]
      split
      · rfl
      · next target htc =>
          rw [hnone] at htc
          cases htc
    · simp only [VMState.i_activate_core, hg1, ne_eq, not_true_eq_false, if_false,
        reduceCtorEq, ite_false]
      split
      · rfl
      · next target htc =>
          rw [hnone] at htc
          cases htc
    · simp only [VMState.i_pause_core, hg1, ne_eq, not_true_eq_false, if_false,
        reduceCtorEq, ite_false]
      split
      · rfl
      · next target htc =>
          rw [hnone] at htc
          cases htc

/-- Witness for C10: with two cores and popped core id `5`, all three
handlers hit the out-of-bounds cores access. -/
theorem core_ops_unchecked_indexing_witness :
    VMState.i_init_core c10State = none ∧
    VMState.i_activate_core c10State = none ∧
    VMState.i_pause_core c10State = none :=
  (core_ops_unchecked_indexing c10State (by decide) (by decide)).2 (by decide)

/-- The data stack after `DATA_STACK_SIZE` pushes. -/
def fullStack : DataStack :=
  (List.range DATA_STACK_SIZE).foldl (fun st i => st.push (Cell.ofNat32 i)) DataStack.empty

/-- C8 counterexample: from the empty stack, `guard(1, 33)` has `top <
pops`, yet it returns `DataStackOverflow` rather than the
`DataStackUnderflow` the claim assigns to `top < pops` — the source
checks the overflow condition first. -/
theorem guard_underflow_counterexample :
    DataStack.empty.top < 1 ∧
    DataStack.empty.guard 1 33 = Error.DataStackOverflow ∧
    DataStack.empty.guard 1 33 ≠ Error.DataStackUnderflow := by decide

/-- C8 (amended): `guard(p, q)` returns `DataStackOverflow` iff
`top + q > 32`; it returns `DataStackUnderflow` iff `top < p` and there
is no overflow (the overflow check takes precedence); `None` otherwise.
The concrete cases of the claim hold as stated. -/
theorem guard_characterization (st : DataStack) (p q : Nat)
    (htop : st.top ≤ DATA_STACK_SIZE) :
    ((st.guard p q = Error.DataStackOverflow ↔ st.top + q > DATA_STACK_SIZE) ∧
     (st.guard p q = Error.DataStackUnderflow ↔
        st.top < p ∧ st.top + q ≤ DATA_STACK_SIZE) ∧
     (st.guard p q = Error.None ↔ p ≤ st.top ∧ st.top + q ≤ DATA_STACK_SIZE)) ∧
    DataStack.empty.guard 0 33 = Error.DataStackOverflow ∧
    DataStack.empty.guard 1 0 = Error.DataStackUnderflow ∧
    fullStack.guard 0 1 = Error.DataStackOverflow := by
  have _hrange : st.top ≤ DATA_STACK_SIZE := htop
  refine ⟨⟨?_, ?_, ?_⟩, by decide, by decide, by decide⟩ <;>
    · unfold DataStack.guard
      split_ifs <;> simp_all

/-- Witness for C8 (amended), at the empty stack with `p = 1`, `q = 0`. -/
theorem guard_characterization_witness :
    ((DataStack.empty.guard 1 0 = Error.DataStackOverflow ↔
        DataStack.empty.top + 0 > DATA_STACK_SIZE) ∧
     (DataStack.empty.guard 1 0 = Error.DataStackUnderflow ↔
        DataStack.empty.top < 1 ∧ DataStack.empty.top + 0 ≤ DATA_STACK_SIZE) ∧
     (DataStack.empty.guard 1 0 = Error.None ↔
        1 ≤ DataStack.empty.top ∧ DataStack.empty.top + 0 ≤ DATA_STACK_SIZE)) ∧
    DataStack.empty.guard 0 33 = Error.DataStackOverflow ∧
    DataStack.empty.guard 1 0 = Error.DataStackUnderflow ∧
    fullStack.guard 0 1 = Error.DataStackOverflow :=
  guard_characterization DataStack.empty 1 0 (by decide)

/-- A memory whose bytes 0 and 1 differ (`0` and `7`). -/
def cmpMem : Memory := Memory.loaded [0, 7]

/-- C1: `compare_block` on two byte-for-byte different in-range blocks
still returns status `None` with `Cell(true)` — the source returns
`Cell{true}` on both the equal and the unequal branch, where the claim
requires `Cell(false)` for unequal blocks. -/
theorem compare_block_true_on_unequal :
    Memory.blockBytes cmpMem 0 1 ≠ Memory.blockBytes cmpMem 1 1 ∧
    cmpMem.compare_block 1 0 1 = (Error.None, Cell.ofBool true) ∧
    Cell.ofBool true ≠ Cell.ofBool false := by
  refine ⟨by decide, by decide, by decide⟩

/-- A VM in which both cores are active; the zeroed memory makes every
fetched opcode a `NO`. -/
def twoActiveState : VMState :=
  { VMState.initial with
      cores := [{ Core.initial with active := true }, { Core.initial with active := true }] }

/-- C2: with two active cores running `NOP`s, `sel_next_core` selects
core 0 from either current core (the second scan loop re-selects the
lowest active core), so four ticks execute `[0, 0, 0, 0]` instead of the
claimed rotation `[0, 1, 0, 1]` — core 1 executes 0 instructions, not
`⌊N/2⌋`. -/
theorem scheduler_starves_second_core :
    (VMState.sel_next_core { twoActiveState with cur_core_id := 0 }).cur_core_id = 0 ∧
    (VMState.sel_next_core { twoActiveState with cur_core_id := 1 }).cur_core_id = 0 ∧
    VMState.schedTrace natFloatSem 4
        { twoActiveState with cur_core_id := CORE_COUNT - 1 } = [0, 0, 0, 0] ∧
    ([0, 0, 0, 0] : List Nat).count 1 = 0 := by
  refine ⟨by decide, by decide, by decide, by decide⟩

/-- The data stack holding the boolean-false condition below the jump
target `9`. -/
def ccStack : DataStack :=
  (DataStack.empty.push (Cell.ofBool false)).push (Cell.ofNat32 9)

/-- The core executing the `CC` under test: active, ip `5`, stack
`ccStack`. -/
def ccCore : Core :=
  { Core.initial with active := true, ip := 5, data := ccStack }

/-- A core 0 whose data stack holds the boolean-false condition below
the jump target `9`, with ip `5`. -/
def ccState : VMState :=
  { VMState.initial with cores := [ccCore, Core.initial] }

/-- C3: executing `CC` with a false condition completes with status
`None` and leaves the address stack unchanged, but the ip still points
at the `CC` opcode itself (5): the false branch of the source never
advances the ip, where the claim requires an advance of exactly 1. -/
theorem conditional_call_false_ip_stuck :
    (VMState.i_conditional_call ccState).1 = Error.None ∧
    (VMState.i_conditional_call ccState).2.cur.addrs = ccState.cur.addrs ∧
    ccState.cur.ip = 5 ∧
    (VMState.i_conditional_call ccState).2.cur.ip = 5 := by
  refine ⟨by decide, by decide, by decide, by decide⟩

/-- The data stack holding `2` below `1`. -/
def slStack : DataStack :=
  (DataStack.empty.push (Cell.ofNat32 2)).push (Cell.ofNat32 1)

/-- The core executing the `SL` under test: active, ip `5`, FLOAT mode,
stack `slStack`. -/
def slCore : Core :=
  { Core.initial with active := true, ip := 5, op_mode := .FLOAT, data := slStack }

/-- A core 0 in FLOAT mode whose data stack holds two cells (`2` below
`1`), with ip `5`. -/
def slState : VMState :=
  { VMState.initial with cores := [slCore, Core.initial] }

/-- The program `LB 2; LB 1; FF; SL; HS`. -/
def slProgState : VMState :=
  { VMState.initial with mem := Memory.loaded [3, 2, 3, 1, 54, 28, 44] }

/-- C4: `bitwise_shift_left` in FLOAT mode does report
`InvalidFloatOperation`, but the `SL` handler's error branch returns the
(`None`) guard status instead, so the handler completes with `None`; a
full run of `LB 2; LB 1; FF; SL; HS` consequently ends in
`DataStackUnderflow` (the un-advanced `SL` re-executes and drains the
stack) and `interpret` never returns `InvalidFloatOperation`. -/
theorem shift_left_float_error_swallowed :
    (Cell.bitwise_shift_left (Cell.ofNat32 2) (Cell.ofNat32 1) OpMode.FLOAT).1 =
      Error.InvalidFloatOperation ∧
    (VMState.i_shift_left slState).1 = Error.None ∧
    (VMState.interpret natFloatSem 10 slProgState).status =
      some Error.DataStackUnderflow := by
  refine ⟨by decide, by decide, by decide⟩

/-- C5: `SL` in FLOAT mode completes with status `None` (the swallowed
error path) yet leaves `op_mode = FLOAT`: the error-return path skips
the `op_mode = SIGNED` tail, so a non-`UU`/`FF` instruction can complete
with status `None` without resetting the mode. -/
theorem shift_left_float_skips_mode_reset :
    (VMState.i_shift_left slState).1 = Error.None ∧
    (VMState.i_shift_left slState).2.cur.op_mode = OpMode.FLOAT := by
  refine ⟨by decide, by decide⟩

/-- An I/O table with all `IO_TABLE_SIZE` slots null. -/
def nullIoTable : IoTable := ⟨List.replicate IO_TABLE_SIZE none⟩

/-- C6: `IoTable::call` guards against `INTERRUPT_TABLE_SIZE` (128)
instead of `IO_TABLE_SIZE` (16), so for ids `16` and `127` it reads a
slot past the end of the 16-slot callback array instead of being a
no-op. -/
theorem io_call_oob_access :
    nullIoTable.callbacks.length = IO_TABLE_SIZE ∧
    IO_TABLE_SIZE ≤ 16 ∧ 16 < INTERRUPT_TABLE_SIZE ∧
    nullIoTable.call 16 = IoCallEffect.oobAccess 16 ∧
    nullIoTable.call 127 = IoCallEffect.oobAccess 127 ∧
    nullIoTable.call 128 = IoCallEffect.noop := by
  refine ⟨by decide, by decide, by decide, by decide, by decide, by decide⟩

end Zagros
